import Mathlib

/-!
Shallow embedding of `fpga_builder/utils.py` (intrepidcs/fpga-builder).

The module is a thin utility layer: a subprocess runner (`run_cmd` with
helpers `_run_blocking` / `_run_nonblocking`), a git-clean check
(`repo_clean`), an interactive yes/no prompt (`query_yes_no`) and a
toolchain version classifier (`check_vitis`).  Each Python function is
translated into an executable Lean definition; Python exceptions become an
explicit error type, the child process is an explicit oracle value
(its merged output lines and exit code), and interactive input is an
explicit list of lines.
-/

/-- Representation of the `cmd` attribute carried by a Python
`subprocess.CalledProcessError`: `_run_blocking` with a line handler passes
the original command string, while `subprocess.run(..., check=True)` stores
its `args`, which is the token list. -/
inductive CmdField where
  | str (s : String)
  | argv (l : List String)
deriving DecidableEq, Repr

/-- Python exceptions that the embedded code can raise. -/
inductive PyErr where
  | calledProcessError (returncode : Int) (cmd : CmdField)
  | valueError (msg : String)
  | indexError
  | keyError
  | typeError (msg : String)
  | osError
deriving DecidableEq, Repr

instance {ε α : Type} [DecidableEq ε] [DecidableEq α] : DecidableEq (Except ε α) := fun a b =>
  match a, b with
  | .ok x, .ok y => if h : x = y then .isTrue (by rw [h]) else .isFalse (by simp [h])
  | .error x, .error y => if h : x = y then .isTrue (by rw [h]) else .isFalse (by simp [h])
  | .ok _, .error _ => .isFalse (by simp)
  | .error _, .ok _ => .isFalse (by simp)

/-- The backslash character, written by code point to keep literals plain. -/
def bslashChar : Char := Char.ofNat 92

/-- The single-quote character. -/
def squoteChar : Char := Char.ofNat 39

/-- The double-quote character. -/
def dquoteChar : Char := Char.ofNat 34

/-- ASCII whitespace as recognised by Python `str.strip()` / `int()`:
space, tab, newline, carriage return, vertical tab, form feed. -/
def isPyWs (c : Char) : Bool :=
  c = ' ' || c = Char.ofNat 9 || c = Char.ofNat 10 || c = Char.ofNat 13 ||
  c = Char.ofNat 11 || c = Char.ofNat 12

/-- Python `str.strip()`: remove leading and trailing whitespace. -/
def pyStrip (s : String) : String :=
  String.mk (((s.data.dropWhile isPyWs).reverse.dropWhile isPyWs).reverse)

/-- Modelled from the spec: a right-trim (`rstrip`), removing trailing
whitespace only.  The spec describes handler lines as decoded and
right-trimmed; this definition follows the spec words so it can be compared
with the source's `strip()` (embedded as `pyStrip`). -/
def pyRstrip (s : String) : String :=
  String.mk ((s.data.reverse.dropWhile isPyWs).reverse)

/-- Python `str.lower()` restricted to ASCII, which covers every token the
prompt recognises. -/
def pyLower (s : String) : String :=
  String.mk (s.data.map Char.toLower)

/-- Validity of the digit part of a Python integer literal after the first
digit: single underscores are allowed between digits, never doubled or
trailing. -/
def pyDigitsRest : List Char → Bool
  | [] => true
  | '_' :: rest =>
    match rest with
    | [] => false
    | c :: rest2 => c.isDigit && pyDigitsRest rest2
  | c :: rest => c.isDigit && pyDigitsRest rest

/-- Validity of the digit part of a Python integer literal: nonempty, starts
with a digit, underscores only between digits. -/
def pyDigitsOk : List Char → Bool
  | [] => false
  | c :: rest => c.isDigit && pyDigitsRest rest

/-- Numeric value of a valid digit part (underscores discarded). -/
def pyDigitsVal (cs : List Char) : Nat :=
  (cs.filter (fun c => c ≠ '_')).foldl (fun n c => 10 * n + (c.toNat - 48)) 0

/-- Python `int(s)`: strip surrounding whitespace, allow one optional sign,
then an ASCII digit string with underscore separators.  `none` models the
`ValueError` that `int` raises on malformed input. -/
def pyInt (s : String) : Option Int :=
  let t := ((s.data.dropWhile isPyWs).reverse.dropWhile isPyWs).reverse
  match t with
  | '+' :: rest => if pyDigitsOk rest then some (pyDigitsVal rest : Int) else none
  | '-' :: rest => if pyDigitsOk rest then some (-(pyDigitsVal rest : Int)) else none
  | rest => if pyDigitsOk rest then some (pyDigitsVal rest : Int) else none

/-- Python `str.split(sep)` for a one-character separator: splitting the
empty string yields `[""]`, adjacent separators yield empty fields. -/
def splitOnChar (sep : Char) : List Char → List (List Char)
  | [] => [[]]
  | c :: rest =>
    let r := splitOnChar sep rest
    if c = sep then [] :: r
    else
      match r with
      | t :: ts => (c :: t) :: ts
      | [] => [[c]]

/-- Embedding of `check_vitis` (utils.py lines 304-309):
`ver_parts = version.split(".")`, then
`int(ver_parts[0]) <= 2019 and int(ver_parts[1]) <= 1` decides 0 versus 1.
Python evaluates the conjunction left to right with short-circuiting, so
`ver_parts[1]` is only read (possible `IndexError`) and parsed (possible
`ValueError`) when the first comparison holds. -/
def checkVitis (version : String) : Except PyErr Int :=
  let verParts := splitOnChar '.' version.data
  match verParts.get? 0 with
  | none => .error .indexError
  | some p0 =>
    match pyInt (String.mk p0) with
    | none => .error (.valueError "invalid literal for int")
    | some a =>
      if a ≤ 2019 then
        match verParts.get? 1 with
        | none => .error .indexError
        | some p1 =>
          match pyInt (String.mk p1) with
          | none => .error (.valueError "invalid literal for int")
          | some b => if b ≤ 1 then .ok 0 else .ok 1
      else
        .ok 1

/-- Error cases of `shlex.split` in POSIX mode: an unterminated quote or a
trailing escape character. -/
inductive ShlexErr where
  | noClosingQuote
  | noEscapedChar
deriving DecidableEq, Repr

/-- Lexer states of `shlex` as exercised by `shlex.split` (POSIX mode,
whitespace split, no comment characters): outside any quote, inside single
or double quotes, or just after an escape character from outside or from
inside double quotes. -/
inductive ShMode where
  | norm
  | squote
  | dquote
  | escNorm
  | escDquote
deriving DecidableEq, Repr

/-- Token-separating whitespace of `shlex`: space, tab, carriage return,
newline. -/
def shWhitespace (c : Char) : Bool :=
  c = ' ' || c = Char.ofNat 9 || c = Char.ofNat 13 || c = Char.ofNat 10

/-- Core loop of `shlex.split(s)` in POSIX mode with whitespace splitting.
Arguments: remaining input, lexer state, current token, whether the current
token saw a quote (a quoted empty token is emitted, an unquoted one is not),
accumulated tokens.  Outside quotes a backslash escapes any character;
inside double quotes it escapes only the backslash and the double quote and
is otherwise kept literally; inside single quotes everything is literal. -/
def shlexAux : List Char → ShMode → List Char → Bool → List String →
    Except ShlexErr (List String)
  | [], .norm, tok, quoted, acc =>
    if tok ≠ [] || quoted then .ok (acc ++ [String.mk tok]) else .ok acc
  | [], .squote, _, _, _ => .error .noClosingQuote
  | [], .dquote, _, _, _ => .error .noClosingQuote
  | [], .escNorm, _, _, _ => .error .noEscapedChar
  | [], .escDquote, _, _, _ => .error .noEscapedChar
  | c :: rest, .norm, tok, quoted, acc =>
    if shWhitespace c then
      if tok ≠ [] || quoted then shlexAux rest .norm [] false (acc ++ [String.mk tok])
      else shlexAux rest .norm [] false acc
    else if c = squoteChar then shlexAux rest .squote tok true acc
    else if c = dquoteChar then shlexAux rest .dquote tok true acc
    else if c = bslashChar then shlexAux rest .escNorm tok quoted acc
    else shlexAux rest .norm (tok ++ [c]) quoted acc
  | c :: rest, .squote, tok, quoted, acc =>
    if c = squoteChar then shlexAux rest .norm tok quoted acc
    else shlexAux rest .squote (tok ++ [c]) quoted acc
  | c :: rest, .dquote, tok, quoted, acc =>
    if c = dquoteChar then shlexAux rest .norm tok quoted acc
    else if c = bslashChar then shlexAux rest .escDquote tok quoted acc
    else shlexAux rest .dquote (tok ++ [c]) quoted acc
  | c :: rest, .escNorm, tok, quoted, acc =>
    shlexAux rest .norm (tok ++ [c]) quoted acc
  | c :: rest, .escDquote, tok, quoted, acc =>
    if c = bslashChar || c = dquoteChar then shlexAux rest .dquote (tok ++ [c]) quoted acc
    else shlexAux rest .dquote (tok ++ [bslashChar, c]) quoted acc

/-- Embedding of `shlex.split(s)` as called by `run_cmd` and
`check_output`: POSIX rules, whitespace splitting, comments disabled. -/
def shlexSplit (s : String) : Except ShlexErr (List String) :=
  shlexAux s.data .norm [] false []

/-- Embedding of `cmd.replace` doubling backslashes (utils.py line 86):
`str.replace` with the one-character pattern backslash substitutes each
backslash by two. -/
def doubleBackslashes (s : String) : String :=
  String.mk (s.data.foldr
    (fun c acc => if c = bslashChar then bslashChar :: bslashChar :: acc else c :: acc) [])

/-- Oracle for one child process: the merged stdout/stderr lines exactly as
successive `readline()` calls return them (decoded, newline included), its
exit code, and whether starting it fails (`FileNotFoundError` / `OSError`). -/
structure ProcBehavior where
  stream : List String
  exitCode : Int
  launchErr : Bool
deriving DecidableEq, Repr

/-- Everything observable about one `run_cmd` call: the Python result
(return value or exception), the arguments passed to the line handler in
order, and the argv of every child process started. -/
structure RunOutcome where
  result : Except PyErr Int
  handlerCalls : List String
  launches : List (List String)
deriving DecidableEq, Repr

/-- The readline loop of `_run_blocking` (utils.py lines 137-143): each
nonempty raw line is decoded and passed through `strip()` to the handler; a
`b''` read with the process still alive calls no handler; the loop ends at
end of stream. -/
def handlerLoop : List String → List String
  | [] => []
  | l :: rest => if l = "" then handlerLoop rest else pyStrip l :: handlerLoop rest

/-- Embedding of `_run_blocking` (utils.py lines 122-156).  With a line
handler, output is captured through a pipe (stderr merged into stdout), each
line is fed to the handler, and a nonzero exit code raises
`CalledProcessError(rc, original_cmd)`.  Without a handler,
`subprocess.run(split_cmd, check=True)` lets output stream through and a
nonzero exit code raises `CalledProcessError` whose `cmd` is the token
list.  A launch failure raises before any line is read. -/
def runBlockingFn (splitCmd : List String) (hasHandler : Bool) (originalCmd : String)
    (proc : ProcBehavior) : RunOutcome :=
  if proc.launchErr then ⟨.error .osError, [], []⟩
  else if hasHandler then
    let calls := handlerLoop proc.stream
    if proc.exitCode ≠ 0 then
      ⟨.error (.calledProcessError proc.exitCode (.str originalCmd)), calls, [splitCmd]⟩
    else ⟨.ok proc.exitCode, calls, [splitCmd]⟩
  else
    if proc.exitCode ≠ 0 then
      ⟨.error (.calledProcessError proc.exitCode (.argv splitCmd)), [], [splitCmd]⟩
    else ⟨.ok proc.exitCode, [], [splitCmd]⟩

/-- Embedding of the call `_run_nonblocking(split_cmd, cwd, cmd)` at
utils.py line 96.  `_run_nonblocking` is defined at line 159 with exactly
two parameters, so this three-argument call raises `TypeError` before any
process is started; the `except (FileNotFoundError, OSError)` clause does
not catch `TypeError`, so it propagates out of `run_cmd`.  The body of
`_run_nonblocking` (Popen with detached streams, returning 0) is
unreachable from `run_cmd`. -/
def runNonblockingCall : RunOutcome :=
  ⟨.error (.typeError "takes 2 positional arguments but 3 were given"), [], []⟩

/-- Embedding of `run_cmd` (utils.py lines 62-103): double the backslashes,
tokenize with `shlex.split` (a tokenizer error propagates), then dispatch on
`blocking` and on whether a line handler was supplied.  The printing of
header and footer has no effect on the outcome and is omitted. -/
def runCmd (cmd : String) (hasHandler : Bool) (blocking : Bool)
    (proc : ProcBehavior) : RunOutcome :=
  match shlexSplit (doubleBackslashes cmd) with
  | .error _ => ⟨.error (.valueError "shlex"), [], []⟩
  | .ok splitCmd =>
    if blocking then runBlockingFn splitCmd hasHandler cmd proc
    else runNonblockingCall

/-- The `valid` dictionary of `query_yes_no` (utils.py line 275): token to
boolean, `none` models a missing key. -/
def validLookup (s : String) : Option Bool :=
  if s = "yes" || s = "y" || s = "ye" then some true
  else if s = "no" || s = "n" then some false
  else none

/-- Prompt selection of `query_yes_no` (utils.py lines 276-283): computed
before the input loop, raising `ValueError` on a default other than
`None`, `"yes"` or `"no"`. -/
def promptFor (default : Option String) : Except PyErr String :=
  match default with
  | none => .ok " [y/n] "
  | some d =>
    if d = "yes" then .ok " [Y/n] "
    else if d = "no" then .ok " [y/N] "
    else .error (.valueError d)

/-- The `while True` loop of `query_yes_no` (utils.py lines 288-296) over an
explicit list of input lines.  Each line is lowercased; with a default, an
empty answer returns `valid[default]`; a recognised token returns its
boolean; anything else prints a reminder and reads again.  `ok none` models
the loop still waiting for input when the supplied lines run out. -/
def queryLoop : Option String → List String → Except PyErr (Option Bool)
  | _, [] => .ok none
  | dflt, inp :: rest =>
    let choice := pyLower inp
    match dflt with
    | some d =>
      if choice = "" then
        match validLookup d with
        | some b => .ok (some b)
        | none => .error .keyError
      else
        match validLookup choice with
        | some b => .ok (some b)
        | none => queryLoop dflt rest
    | none =>
      match validLookup choice with
      | some b => .ok (some b)
      | none => queryLoop dflt rest

/-- Embedding of `query_yes_no` (utils.py lines 265-296): an invalid default
raises before the first prompt is printed or any input read; otherwise the
input loop runs. -/
def queryYesNo (default : Option String) (inputs : List String) :
    Except PyErr (Option Bool) :=
  match promptFor default with
  | .error e => .error e
  | .ok _ => queryLoop default inputs

/-- The fixed status command of `repo_clean` (utils.py line 247). -/
def repoStatusCmd : String := "git status --porcelain"

/-- Embedding of `repo_clean` (utils.py lines 236-261) over the decoded
output of `git status --porcelain` and the module-level debug override
(`none` when `DEBUG_ALLOW_GIT_DIRTY` is absent from `globals()`).  Empty
output returns `(True, "")`; nonempty output prepends the command and a
newline and returns `False`, or the override's value when it is set. -/
def repoClean (debugAllowGitDirty : Option Bool) (statusOutput : String) :
    Bool × String :=
  if statusOutput ≠ "" then
    let output := repoStatusCmd ++ "\n" ++ statusOutput
    match debugAllowGitDirty with
    | some b => (b, output)
    | none => (false, output)
  else (true, "")

/-- Claim C1 counterexample: the spec test vector sends "2018.9" to 0, but
the code computes `2018 <= 2019 and 9 <= 1`, whose second conjunct is
false, and therefore returns 1. -/
theorem checkVitis_spec_vectors_counterexample :
    checkVitis "2018.9" = .ok 1 ∧ checkVitis "2018.9" ≠ .ok 0 := by decide

/-- Claim C1 as amended: the version classifier sends "2019.1" to 0,
"2019.2" to 1, "2020.1" to 1, and "2018.9" to 1. -/
theorem checkVitis_vectors :
    checkVitis "2019.1" = .ok 0 ∧ checkVitis "2019.2" = .ok 1 ∧
    checkVitis "2020.1" = .ok 1 ∧ checkVitis "2018.9" = .ok 1 := by decide

/-- Claim C2: calling run_cmd with blocking = False does not return 0; the
call `_run_nonblocking(split_cmd, cwd, cmd)` passes three arguments to a
two-parameter function, so a `TypeError` is raised, it is not caught by the
`except (FileNotFoundError, OSError)` clause, and no child process is ever
started.  Evaluated here at the command "echo hi". -/
theorem runCmd_nonblocking_raises :
    (runCmd "echo hi" false false ⟨[], 0, false⟩).result
      = .error (.typeError "takes 2 positional arguments but 3 were given") ∧
    (runCmd "echo hi" false false ⟨[], 0, false⟩).launches = [] := by decide

/-- Claim C7 counterexample: for "2020.x" the second dot-separated
component is not an integer, yet check_vitis raises nothing and returns 1,
because `int(ver_parts[0]) <= 2019` is already false and the conjunction
short-circuits. -/
theorem checkVitis_short_circuit_counterexample :
    pyInt "x" = none ∧ checkVitis "2020.x" = .ok 1 := by decide

/-- Claim C7 as amended: when the first two components parse as integers
the result is 0 exactly when the first is at most 2019 and the second at
most 1, and 1 otherwise; a first component that is not an integer raises,
as does a non-integer second component when the first parses to at most
2019; a first component parsing above 2019 yields 1 with the rest of the
string never examined. -/
theorem checkVitis_contract :
    (∀ v p0 p1 ps a b, splitOnChar '.' v.data = p0 :: p1 :: ps →
       pyInt (String.mk p0) = some a → pyInt (String.mk p1) = some b →
       checkVitis v = .ok (if a ≤ 2019 ∧ b ≤ 1 then 0 else 1)) ∧
    (∀ v p0 ps, splitOnChar '.' v.data = p0 :: ps →
       pyInt (String.mk p0) = none →
       checkVitis v = .error (.valueError "invalid literal for int")) ∧
    (∀ v p0 p1 ps a, splitOnChar '.' v.data = p0 :: p1 :: ps →
       pyInt (String.mk p0) = some a → a ≤ 2019 → pyInt (String.mk p1) = none →
       checkVitis v = .error (.valueError "invalid literal for int")) ∧
    (∀ v p0 ps a, splitOnChar '.' v.data = p0 :: ps →
       pyInt (String.mk p0) = some a → 2019 < a →
       checkVitis v = .ok 1) := by
  refine ⟨?_, ?_, ?_, ?_⟩
  · intro v p0 p1 ps a b hsplit ha hb
    by_cases hab : a ≤ 2019 ∧ b ≤ 1
    · simp [checkVitis, hsplit, ha, hb, hab.1, hab.2]
    · rcases not_and_or.mp hab with h | h
      · simp [checkVitis, hsplit, ha, hb, h, hab]
      · by_cases h1 : a ≤ 2019
        · simp [checkVitis, hsplit, ha, hb, h1, h, hab]
        · simp [checkVitis, hsplit, ha, hb, h1, hab]
  · intro v p0 ps hsplit ha
    simp [checkVitis, hsplit, ha]
  · intro v p0 p1 ps a hsplit ha h1 hb
    simp [checkVitis, hsplit, ha, h1, hb]
  · intro v p0 ps a hsplit ha h1
    simp [checkVitis, hsplit, ha, not_le.mpr h1]

/-- Claim C7 witness: the amended contract evaluated on "2019.1" (both
components parse, result 0), "x.1" (first component not an integer),
"2019.x" (second component not an integer with first at most 2019) and
"2020.x" (first component above 2019, rest ignored). -/
theorem checkVitis_contract_witness :
    checkVitis "2019.1" = .ok (if (2019 : Int) ≤ 2019 ∧ (1 : Int) ≤ 1 then 0 else 1) ∧
    checkVitis "x.1" = .error (.valueError "invalid literal for int") ∧
    checkVitis "2019.x" = .error (.valueError "invalid literal for int") ∧
    checkVitis "2020.x" = .ok 1 := by
  refine ⟨?_, ?_, ?_, ?_⟩
  · exact checkVitis_contract.1 "2019.1" "2019".data "1".data [] 2019 1
      (by decide) (by decide) (by decide)
  · exact checkVitis_contract.2.1 "x.1" "x".data ["1".data] (by decide) (by decide)
  · exact checkVitis_contract.2.2.1 "2019.x" "2019".data "x".data [] 2019
      (by decide) (by decide) (by decide) (by decide)
  · exact checkVitis_contract.2.2.2 "2020.x" "2020".data ["x".data] 2020
      (by decide) (by decide) (by decide)

/-- Claim C10: for a version string containing no dot whose single
component parses as an integer, check_vitis returns 1 when the value
exceeds 2019 (the second component is never examined thanks to
short-circuit evaluation) and raises `IndexError` on `ver_parts[1]` when
the value is at most 2019. -/
theorem checkVitis_single_component (v : String) (n : Int)
    (hsplit : splitOnChar '.' v.data = [v.data]) (hn : pyInt v = some n) :
    (2019 < n → checkVitis v = .ok 1) ∧
    (n ≤ 2019 → checkVitis v = .error .indexError) := by
  have hn' : pyInt (String.mk v.data) = some n := hn
  constructor
  · intro h
    simp [checkVitis, hsplit, hn', not_le.mpr h]
  · intro h
    simp [checkVitis, hsplit, hn', h]

/-- Claim C10 witness: "2020" has no dot and exceeds 2019, so the result is
1; "2019" has no dot and is at most 2019, so indexing the second component
fails. -/
theorem checkVitis_single_component_witness :
    checkVitis "2020" = .ok 1 ∧ checkVitis "2019" = .error .indexError := by
  constructor
  · exact (checkVitis_single_component "2020" 2020 (by decide) (by decide)).1 (by decide)
  · exact (checkVitis_single_component "2019" 2019 (by decide) (by decide)).2 (by decide)

theorem handlerLoop_eq_map (s : List String) (h : ∀ l ∈ s, l ≠ "") :
    handlerLoop s = s.map pyStrip := by
  induction s with
  | nil => rfl
  | cons a rest ih =>
    have ha : a ≠ "" := h a (by simp)
    have hr := ih (fun l hl => h l (by simp [hl]))
    simp [handlerLoop, ha, hr]

/-- Claim C3 counterexample: on a command whose single output line is
"  x" followed by a newline, the handler receives "x" — the code passes
each line through `strip()`, which removes the leading whitespace that a
right-trim would keep. -/
theorem runCmd_handler_rstrip_counterexample :
    (runCmd "cat" true true ⟨["  x\n"], 0, false⟩).result = .ok 0 ∧
    (runCmd "cat" true true ⟨["  x\n"], 0, false⟩).handlerCalls = ["x"] ∧
    pyRstrip "  x\n" = "  x" ∧
    (runCmd "cat" true true ⟨["  x\n"], 0, false⟩).handlerCalls
      ≠ List.map pyRstrip ["  x\n"] := by decide

/-- Claim C3 as amended: for every command that starts and exits with code
0, run_cmd with blocking = True and a line handler returns 0 and invokes
the handler exactly once per line of the merged stdout/stderr output, in
order, with each line decoded and stripped of leading and trailing
whitespace. -/
theorem runCmd_handler_lines (cmd : String) (args : List String) (proc : ProcBehavior)
    (hargs : shlexSplit (doubleBackslashes cmd) = .ok args)
    (hlaunch : proc.launchErr = false) (hexit : proc.exitCode = 0)
    (hlines : ∀ l ∈ proc.stream, l ≠ "") :
    runCmd cmd true true proc = ⟨.ok 0, proc.stream.map pyStrip, [args]⟩ := by
  simp [runCmd, runBlockingFn, hargs, hlaunch, hexit, handlerLoop_eq_map proc.stream hlines]

/-- Claim C3 witness: the amended statement evaluated for the command
"cat" producing the two lines "  a " and "b" (with trailing newlines) and
exiting 0: the handler sees "a" then "b". -/
theorem runCmd_handler_lines_witness :
    runCmd "cat" true true ⟨["  a \n", "b\n"], 0, false⟩
      = ⟨.ok 0, ["a", "b"], [["cat"]]⟩ := by
  have h := runCmd_handler_lines "cat" ["cat"] ⟨["  a \n", "b\n"], 0, false⟩
    (by decide) (by decide) (by decide) (by decide)
  simpa using h

/-- Claim C4: for every command that starts and exits with a nonzero code,
run_cmd with blocking = True raises a `CalledProcessError` carrying that
exit code together with the command — the original command text on the
line-handler path, the tokenized command on the direct-stream path — and
in neither case returns normally. -/
theorem runCmd_blocking_nonzero_raises (cmd : String) (args : List String)
    (proc : ProcBehavior)
    (hargs : shlexSplit (doubleBackslashes cmd) = .ok args)
    (hlaunch : proc.launchErr = false) (hexit : proc.exitCode ≠ 0) :
    (runCmd cmd true true proc).result
      = .error (.calledProcessError proc.exitCode (.str cmd)) ∧
    (runCmd cmd false true proc).result
      = .error (.calledProcessError proc.exitCode (.argv args)) ∧
    (∀ n, (runCmd cmd true true proc).result ≠ .ok n) ∧
    (∀ n, (runCmd cmd false true proc).result ≠ .ok n) := by
  refine ⟨?_, ?_, ?_, ?_⟩ <;>
    simp [runCmd, runBlockingFn, hargs, hlaunch, hexit]

/-- Claim C4 witness: the command "false" exiting with code 1 raises on
both blocking paths. -/
theorem runCmd_blocking_nonzero_raises_witness :
    (runCmd "false" true true ⟨[], 1, false⟩).result
      = .error (.calledProcessError 1 (.str "false")) ∧
    (runCmd "false" false true ⟨[], 1, false⟩).result
      = .error (.calledProcessError 1 (.argv ["false"])) := by
  have h := runCmd_blocking_nonzero_raises "false" ["false"] ⟨[], 1, false⟩
    (by decide) (by decide) (by decide)
  exact ⟨h.1, h.2.1⟩

/-- Claim C8: every child process started by run_cmd is executed with
exactly the token list obtained by shell-word-splitting the command string
after every literal backslash in it has been doubled. -/
theorem runCmd_launch_argv (cmd : String) (hasHandler blocking : Bool)
    (proc : ProcBehavior) (l : List String)
    (hl : l ∈ (runCmd cmd hasHandler blocking proc).launches) :
    shlexSplit (doubleBackslashes cmd) = .ok l := by
  revert hl
  unfold runCmd runNonblockingCall runBlockingFn
  cases h : shlexSplit (doubleBackslashes cmd) with
  | error e => simp
  | ok args =>
    cases blocking <;> cases hasHandler <;>
      by_cases hle : proc.launchErr <;> by_cases hec : proc.exitCode = 0 <;>
      simp_all

/-- Claim C8 witness: running "ls a" (blocking, no handler) launches argv
["ls", "a"], which is the shell-split of the command with backslashes
doubled. -/
theorem runCmd_launch_argv_witness :
    shlexSplit (doubleBackslashes "ls a") = .ok ["ls", "a"] :=
  runCmd_launch_argv "ls a" false true ⟨[], 0, false⟩ ["ls", "a"] (by decide)

/-- Claim C9: whenever run_cmd with blocking = True returns normally, the
returned value is 0 — a nonzero child exit code is never observable as a
normal return value, on both the line-handler and the direct-stream
paths. -/
theorem runCmd_blocking_ok_zero (cmd : String) (hasHandler : Bool)
    (proc : ProcBehavior) (n : Int)
    (h : (runCmd cmd hasHandler true proc).result = .ok n) :
    n = 0 := by
  revert h
  unfold runCmd runBlockingFn
  cases hs : shlexSplit (doubleBackslashes cmd) with
  | error e => simp
  | ok args =>
    cases hasHandler <;>
      by_cases hle : proc.launchErr <;> by_cases hec : proc.exitCode = 0 <;>
      simp_all

/-- Claim C9 witness: the theorem applied to the command "true" exiting 0
on the direct-stream path, whose result is `ok 0`. -/
theorem runCmd_blocking_ok_zero_witness : (0 : Int) = 0 :=
  runCmd_blocking_ok_zero "true" false ⟨[], 0, false⟩ 0 (by decide)

/-- Claim C5: the prompt maps yes/y/ye (case-insensitively) to true and
no/n to false under any legal default; an empty line returns the default's
boolean when a default is supplied and re-prompts when the default is
None; any unrecognized line re-prompts; and a default other than "yes",
"no" or None raises `ValueError` before any prompting or reading. -/
theorem queryYesNo_contract :
    (∀ d t rest, (d = none ∨ d = some "yes" ∨ d = some "no") →
       (pyLower t = "yes" ∨ pyLower t = "y" ∨ pyLower t = "ye") →
       queryYesNo d (t :: rest) = .ok (some true)) ∧
    (∀ d t rest, (d = none ∨ d = some "yes" ∨ d = some "no") →
       (pyLower t = "no" ∨ pyLower t = "n") →
       queryYesNo d (t :: rest) = .ok (some false)) ∧
    (∀ rest, queryYesNo (some "yes") ("" :: rest) = .ok (some true)) ∧
    (∀ rest, queryYesNo (some "no") ("" :: rest) = .ok (some false)) ∧
    (∀ rest, queryYesNo none ("" :: rest) = queryYesNo none rest) ∧
    (∀ d u rest, (d = none ∨ d = some "yes" ∨ d = some "no") →
       validLookup (pyLower u) = none → (d = none ∨ pyLower u ≠ "") →
       queryYesNo d (u :: rest) = queryYesNo d rest) ∧
    (∀ s inputs, s ≠ "yes" → s ≠ "no" →
       queryYesNo (some s) inputs = .error (.valueError s)) := by
  refine ⟨?_, ?_, ?_, ?_, ?_, ?_, ?_⟩
  · intro d t rest hd ht
    have hne : pyLower t ≠ "" := by rcases ht with h | h | h <;> simp [h]
    have hv : validLookup (pyLower t) = some true := by
      rcases ht with h | h | h <;> simp [validLookup, h]
    rcases hd with rfl | rfl | rfl <;> simp [queryYesNo, promptFor, queryLoop, hne, hv]
  · intro d t rest hd ht
    have hne : pyLower t ≠ "" := by rcases ht with h | h <;> simp [h]
    have hv : validLookup (pyLower t) = some false := by
      rcases ht with h | h <;> simp [validLookup, h]
    rcases hd with rfl | rfl | rfl <;> simp [queryYesNo, promptFor, queryLoop, hne, hv]
  · intro rest
    simp [queryYesNo, promptFor, queryLoop, pyLower, validLookup]
  · intro rest
    simp [queryYesNo, promptFor, queryLoop, pyLower, validLookup]
  · intro rest
    simp [queryYesNo, promptFor, queryLoop, pyLower, validLookup]
  · intro d u rest hd hv hne
    rcases hd with rfl | rfl | rfl
    · simp [queryYesNo, promptFor, queryLoop, hv]
    · rcases hne with h | h
      · exact absurd h (by simp)
      · simp [queryYesNo, promptFor, queryLoop, hv, h]
    · rcases hne with h | h
      · exact absurd h (by simp)
      · simp [queryYesNo, promptFor, queryLoop, hv, h]
  · intro s inputs h1 h2
    simp [queryYesNo, promptFor, h1, h2]

/-- Claim C5 witness: "YES" with default "yes" answers true, "n" with no
default answers false, an empty line with default "no" answers false, an
unrecognised "maybe" re-prompts, and the default "x" raises. -/
theorem queryYesNo_contract_witness :
    queryYesNo (some "yes") ["YES"] = .ok (some true) ∧
    queryYesNo none ["n"] = .ok (some false) ∧
    queryYesNo (some "no") [""] = .ok (some false) ∧
    queryYesNo (some "yes") ["maybe"] = queryYesNo (some "yes") [] ∧
    queryYesNo (some "x") [] = .error (.valueError "x") := by
  refine ⟨?_, ?_, ?_, ?_, ?_⟩
  · exact queryYesNo_contract.1 (some "yes") "YES" []
      (Or.inr (Or.inl rfl)) (Or.inl (by decide))
  · exact queryYesNo_contract.2.1 none "n" [] (Or.inl rfl) (Or.inr (by decide))
  · exact queryYesNo_contract.2.2.2.1 []
  · exact queryYesNo_contract.2.2.2.2.2.1 (some "yes") "maybe" []
      (Or.inr (Or.inl rfl)) (by decide) (Or.inr (by decide))
  · exact queryYesNo_contract.2.2.2.2.2.2 "x" [] (by decide) (by decide)

/-- Claim C6: with the debug override unset, repo_clean returns
`(True, "")` exactly when the status query's output is empty, and
otherwise returns `(False, s)` where `s` is the status command text, a
newline, and the query's output. -/
theorem repoClean_contract (s : String) :
    ((repoClean none s = (true, "")) ↔ s = "") ∧
    (s ≠ "" → repoClean none s = (false, repoStatusCmd ++ "\n" ++ s)) := by
  by_cases h : s = ""
  · subst h
    simp [repoClean]
  · simp [repoClean, h]

/-- Claim C6 witness: empty porcelain output reports clean; the output
" M file" reports dirty with the command text prepended. -/
theorem repoClean_contract_witness :
    repoClean none "" = (true, "") ∧
    repoClean none " M file" = (false, repoStatusCmd ++ "\n" ++ " M file") := by
  constructor
  · exact (repoClean_contract "").1.mpr rfl
  · exact (repoClean_contract " M file").2 (by decide)
